import Mathlib

/-!
Shallow embedding of `src/lib/pciesdr/pciesdr_source_c.cc` (gr-osmosdr
PCIeSDR source block).  C `double` values are modelled as exact rationals
(`ℚ`); the concrete rate/frequency/ppm values appearing in the spec and in
the constructor are all exactly representable as IEEE doubles and the
arithmetic on them is exact, so the rational model coincides with the C
arithmetic on every input used here.  Device-transport calls
(`msdr_start`, `msdr_stop`, `msdr_read`, `msdr_get_stats`,
`msdr_set_rx_gain`, `msdr_get_rx_gain`) are opaque to the source file, so
their results enter each operation as explicit oracle arguments.
-/

namespace PcieSdr

/-- The C helper `static long gcd(long a, long b)` from
`pciesdr_source_c.cc` lines 49-60, embedded on `ℕ`: at its single call
site both arguments are nonnegative (`round(frac * precision)` with
`frac ∈ [0,1)`, and `precision = 10^9`), where C `%` agrees with `Nat.mod`.
Branch structure is kept exactly as in the source. -/
def cgcd (a b : ℕ) : ℕ :=
  if a = 0 then b
  else if b = 0 then a
  else if a < b then cgcd a (b % a)
  else cgcd b (a % b)
termination_by b
decreasing_by
  · exact Nat.lt_trans (Nat.mod_lt _ (Nat.pos_of_ne_zero (by assumption))) (by assumption)
  · exact Nat.mod_lt _ (Nat.pos_of_ne_zero (by assumption))

/-- The mutable state of one `pciesdr_source_c` object: the device handle
(modelled as a non-null flag), the `StartParams` fields the claims touch,
the cached configuration members, the shared running flag and the stream
timestamp.  Per-channel arrays (`rx_gain`, `rx_bandwidth`) are modelled as
functions from the channel index. -/
structure SourceState where
  /-- `_dev`: true iff the handle is non-null. -/
  dev : Bool
  /-- `StartParams.rx_gain[chan]`. -/
  rxGain : ℕ → ℚ
  /-- `StartParams.rx_bandwidth[chan]`. -/
  rxBandwidth : ℕ → ℚ
  /-- `StartParams.sample_rate_num[0]`. -/
  sampleRateNum : ℤ
  /-- `StartParams.sample_rate_den[0]`. -/
  sampleRateDen : ℤ
  /-- `StartParams.rx_freq[0]` (a `uint64_t`). -/
  rxFreq : ℕ
  /-- `_sample_rate`. -/
  sampleRate : ℚ
  /-- `_center_freq`. -/
  centerFreq : ℚ
  /-- `_freq_corr`. -/
  freqCorr : ℚ
  /-- `_auto_gain`. -/
  autoGain : Bool
  /-- `_vga_gain` (the stored IF gain; never written after construction). -/
  vgaGain : ℚ
  /-- `_bandwidth`. -/
  bandwidth : ℚ
  /-- the shared `_running` flag. -/
  running : Bool
  /-- `timestamp_rx` (`int64_t`). -/
  timestampRx : ℤ

/-- `uint64_t(x)` applied to a C `double`: conversion truncates toward
zero; every value cast in this file is nonnegative (out-of-range or
negative doubles would be undefined behaviour in C), so truncation is the
floor. -/
def toUInt64Trunc (q : ℚ) : ℕ := (⌊q⌋).toNat

/-- `pciesdr_source_c::pciesdr_set_freq` (lines 187-195): range-check the
corrected frequency against [70e6, 6000e6]; on success store it in
`StartParams.rx_freq[0]` and return 0, otherwise return 1 leaving the
state unchanged. -/
def pciesdr_set_freq (s : SourceState) (corr_freq : ℕ) : ℤ × SourceState :=
  if corr_freq < 70000000 ∨ corr_freq > 6000000000 then (1, s)
  else (0, { s with rxFreq := corr_freq })

/-- `pciesdr_source_c::pciesdr_set_sample_rate` (lines 197-219): reject
rates outside [400e3, 25e6]; otherwise split into integral and fractional
parts, scale the fraction by the precision constant 10^9, round, reduce by
the gcd with 10^9 and store the resulting numerator/denominator pair. -/
def pciesdr_set_sample_rate (s : SourceState) (rate : ℚ) : ℤ × SourceState :=
  if rate < 400000 ∨ rate > 25000000 then (1, s)
  else
    let integral : ℤ := ⌊rate⌋
    let frac : ℚ := rate - integral
    let precision : ℕ := 1000000000
    let gcd_ : ℤ := cgcd (round (frac * precision)).toNat precision
    let denominator : ℤ := precision / gcd_
    let numerator : ℤ := round (frac * precision) / gcd_
    (0, { s with sampleRateNum := integral * denominator + numerator,
                 sampleRateDen := denominator })

/-- `pciesdr_source_c::set_sample_rate` (lines 335-348): when the handle
is non-null, run the negotiator and cache `_sample_rate` only on success;
always return `get_sample_rate()`. -/
def set_sample_rate (s : SourceState) (rate : ℚ) : ℚ × SourceState :=
  if s.dev then
    let r := pciesdr_set_sample_rate s rate
    let s2 := if r.1 = 0 then { r.2 with sampleRate := rate } else r.2
    (s2.sampleRate, s2)
  else (s.sampleRate, s)

/-- `pciesdr_source_c::get_sample_rate` (lines 350-353). -/
def get_sample_rate (s : SourceState) : ℚ := s.sampleRate

/-- `pciesdr_source_c::set_center_freq` (lines 364-379): apply the stored
ppm correction (`APPLY_PPM_CORR`), push the corrected frequency through
`pciesdr_set_freq` and cache the uncorrected request in `_center_freq`
only on success; always return `get_center_freq`. -/
def set_center_freq (s : SourceState) (freq : ℚ) : ℚ × SourceState :=
  if s.dev then
    let corr_freq : ℚ := freq * (1 + s.freqCorr * (1 / 1000000))
    let r := pciesdr_set_freq s (toUInt64Trunc corr_freq)
    let s2 := if r.1 = 0 then { r.2 with centerFreq := freq } else r.2
    (s2.centerFreq, s2)
  else (s.centerFreq, s)

/-- `pciesdr_source_c::get_center_freq` (lines 381-384). -/
def get_center_freq (s : SourceState) : ℚ := s.centerFreq

/-- `pciesdr_source_c::set_freq_corr` (lines 386-393): store the new ppm
value, re-trigger a device frequency update at the stored center
frequency, and return `get_freq_corr`. -/
def set_freq_corr (s : SourceState) (ppm : ℚ) : ℚ × SourceState :=
  let s1 : SourceState := { s with freqCorr := ppm }
  let r := set_center_freq s1 s1.centerFreq
  (r.2.freqCorr, r.2)

/-- `pciesdr_source_c::get_freq_corr` (lines 395-398). -/
def get_freq_corr (s : SourceState) : ℚ := s.freqCorr

/-- `pciesdr_source_c::start` (lines 221-250): fail on a null handle;
issue `msdr_start` (oracle result `startRet`) and fail on non-zero;
issue `msdr_get_stats` (oracle result `statsRet`) and fail on non-zero;
only then reset `timestamp_rx` to 0, set `_running`, and succeed.
Failure paths return before touching `timestamp_rx` or `_running`. -/
def start (s : SourceState) (startRet statsRet : ℤ) : Bool × SourceState :=
  if ¬ s.dev then (false, s)
  else if startRet ≠ 0 then (false, s)
  else if statsRet ≠ 0 then (false, s)
  else (true, { s with timestampRx := 0, running := true })

/-- `pciesdr_source_c::stop` (lines 252-270): fail on a null handle;
issue `msdr_stop` (oracle result `stopRet`); on non-zero result report
the failure and return `false` — note the early `return` comes before
the `_running = 0` assignment; only on success clear `_running`. -/
def stop (s : SourceState) (stopRet : ℤ) : Bool × SourceState :=
  if ¬ s.dev then (false, s)
  else if stopRet ≠ 0 then (false, s)
  else (true, { s with running := false })

/-- Result of one `work` call: the produced item count returned to the
scheduler, the post-state, and whether the diagnostic
`msdr_get_stats` call was issued. -/
structure WorkResult where
  produced : ℤ
  state : SourceState
  statsRequested : Bool

/-- `pciesdr_source_c::work` (lines 272-306): call `msdr_read` (oracle
results `rc` for the return code and `ts` for the out-parameter
`timestamp_tmp`).  On `rc < 0`, report, issue `msdr_get_stats` purely for
diagnostics (its oracle result `statsRet` only selects which message is
printed) and return 0 with `timestamp_rx` untouched; otherwise store the
reported timestamp and return `rc`. -/
def work (s : SourceState) (noutput_items : ℕ) (rc ts statsRet : ℤ) :
    WorkResult :=
  if rc < 0 then
    ⟨0, s, true⟩
  else
    ⟨rc, { s with timestampRx := ts }, false⟩

/-- `pciesdr_source_c::get_gain_range(name, chan)` (lines 415-426),
returned as a (start, stop) pair: [0, 60] for the RF and IF stages, the
empty default range otherwise. -/
def get_gain_range (name : String) : ℚ × ℚ :=
  if name = "RF" then (0, 60)
  else if name = "IF" then (0, 60)
  else (0, 0)

/-- `pciesdr_source_c::get_gain(chan)` (lines 474-487): start from the
configured `StartParams.rx_gain[chan]`; under the running-flag mutex, if
`_running` replace it with the live `msdr_get_rx_gain` value (oracle
argument `liveGain`). -/
def get_gain (s : SourceState) (chan : ℕ) (liveGain : ℚ) : ℚ :=
  if s.running then liveGain else s.rxGain chan

/-- `pciesdr_source_c::set_gain(gain, chan)` (lines 440-459):
unconditionally store the gain into `StartParams.rx_gain[chan]`; under
the mutex, if `_running`, issue `msdr_set_rx_gain` (oracle result
`devRet`); a non-zero result is only logged; return `get_gain(chan)`. -/
def set_gain (s : SourceState) (gain : ℚ) (chan : ℕ)
    (devRet : ℤ) (liveGain : ℚ) : ℚ × SourceState :=
  let s1 : SourceState :=
    { s with rxGain := fun c => if c = chan then gain else s.rxGain c }
  (get_gain s1 chan liveGain, s1)

/-- `pciesdr_source_c::set_if_gain` (lines 502-507): query the IF gain
range (no side effect) and return `_vga_gain`; nothing is stored and no
device command is issued. -/
def set_if_gain (s : SourceState) (gain : ℚ) (chan : ℕ) : ℚ × SourceState :=
  let _if_gains := get_gain_range "IF"
  (s.vgaGain, s)

/-- `pciesdr_source_c::set_gain(gain, name, chan)` (lines 461-472):
dispatch "RF" to `set_gain`, "IF" to `set_if_gain`, default to
`set_gain`. -/
def set_gain_named (s : SourceState) (gain : ℚ) (name : String) (chan : ℕ)
    (devRet : ℤ) (liveGain : ℚ) : ℚ × SourceState :=
  if name = "RF" then set_gain s gain chan devRet liveGain
  else if name = "IF" then set_if_gain s gain chan
  else set_gain s gain chan devRet liveGain

/-- `pciesdr_source_c::set_gain_mode` (lines 428-433). -/
def set_gain_mode (s : SourceState) (automatic : Bool) : Bool × SourceState :=
  let s1 : SourceState := { s with autoGain := automatic }
  (s1.autoGain, s1)

/-- `pciesdr_source_c::get_bandwidth` (lines 544-547): returns
`StartParams.rx_bandwidth[chan]`. -/
def get_bandwidth (s : SourceState) (chan : ℕ) : ℚ :=
  s.rxBandwidth chan

/-- `pciesdr_source_c::set_bandwidth` (lines 533-542): a bandwidth of 0
selects `_sample_rate * 0.75`; store the (possibly substituted) value in
`StartParams.rx_bandwidth[chan]`, cache `_bandwidth = get_bandwidth(chan)`
and return it. -/
def set_bandwidth (s : SourceState) (bandwidth : ℚ) (chan : ℕ) :
    ℚ × SourceState :=
  let bw : ℚ := if bandwidth = 0 then s.sampleRate * (3 / 4) else bandwidth
  let s1 : SourceState :=
    { s with rxBandwidth := fun c => if c = chan then bw else s.rxBandwidth c }
  let s2 : SourceState := { s1 with bandwidth := get_bandwidth s1 chan }
  (s2.bandwidth, s2)

/-- One externally-invokable operation on the block, with its transport
oracle results bundled in; used to state trace-level properties of
`timestamp_rx`. -/
inductive Op where
  | opStart (startRet statsRet : ℤ)
  | opStop (stopRet : ℤ)
  | opWork (noutput_items : ℕ) (rc ts statsRet : ℤ)
  | opSetSampleRate (rate : ℚ)
  | opSetCenterFreq (freq : ℚ)
  | opSetFreqCorr (ppm : ℚ)
  | opSetGain (gain : ℚ) (chan : ℕ) (devRet : ℤ) (liveGain : ℚ)
  | opSetGainNamed (gain : ℚ) (name : String) (chan : ℕ) (devRet : ℤ)
      (liveGain : ℚ)
  | opSetIfGain (gain : ℚ) (chan : ℕ)
  | opSetGainMode (automatic : Bool)
  | opSetBandwidth (bandwidth : ℚ) (chan : ℕ)

/-- The state transition performed by each operation (discarding the
returned value). -/
def step (s : SourceState) : Op → SourceState
  | .opStart r1 r2 => (start s r1 r2).2
  | .opStop r => (stop s r).2
  | .opWork n rc ts r => (work s n rc ts r).state
  | .opSetSampleRate rate => (set_sample_rate s rate).2
  | .opSetCenterFreq f => (set_center_freq s f).2
  | .opSetFreqCorr p => (set_freq_corr s p).2
  | .opSetGain g c r l => (set_gain s g c r l).2
  | .opSetGainNamed g nm c r l => (set_gain_named s g nm c r l).2
  | .opSetIfGain g c => (set_if_gain s g c).2
  | .opSetGainMode a => (set_gain_mode s a).2
  | .opSetBandwidth b c => (set_bandwidth s b c).2

/-- `Op.isStart`: whether the operation is a `start` call. -/
def Op.isStart : Op → Bool
  | .opStart _ _ => true
  | _ => false

/-- `Op.isWork`: whether the operation is a `work` (per-cycle read)
call. -/
def Op.isWork : Op → Bool
  | .opWork _ _ _ _ => true
  | _ => false

/-- A concrete reachable-shaped state used by the closed
counterexample and witness theorems: non-null handle, streaming, with a
non-zero stream timestamp. -/
def exRunning : SourceState :=
  { dev := true
    rxGain := fun _ => 40
    rxBandwidth := fun _ => 10000
    sampleRateNum := 1500000
    sampleRateDen := 1
    rxFreq := 1500000000
    sampleRate := 1500000
    centerFreq := 1500000000
    freqCorr := 0
    autoGain := false
    vgaGain := 0
    bandwidth := 10000
    running := true
    timestampRx := 5 }

/-- A concrete idle-shaped state: same configuration as `exRunning` but
with the running flag clear. -/
def exIdle : SourceState := { exRunning with running := false }

/-- The embedded C `gcd` agrees with `Nat.gcd` on all natural inputs. -/
theorem cgcd_eq_gcd (a b : ℕ) : cgcd a b = Nat.gcd a b := by
  induction b using Nat.strong_induction_on generalizing a with
  | _ b ih =>
    rw [cgcd]
    rcases eq_or_ne a 0 with ha | ha
    · simp [ha]
    rcases eq_or_ne b 0 with hb | hb
    · simp [ha, hb]
    rw [if_neg ha, if_neg hb]
    by_cases hab : a < b
    · rw [if_pos hab]
      have hlt : b % a < b :=
        lt_trans (Nat.mod_lt _ (Nat.pos_of_ne_zero ha)) hab
      rw [ih _ hlt, Nat.gcd_comm a (b % a)]
      exact (Nat.gcd_rec a b).symm
    · rw [if_neg hab]
      have hlt : a % b < b := Nat.mod_lt _ (Nat.pos_of_ne_zero hb)
      rw [ih _ hlt, Nat.gcd_comm b (a % b), ← Nat.gcd_rec b a,
        Nat.gcd_comm b a]

/-- C1 counterexample: in a streaming state with a non-null device
handle, when the transport stop command returns the non-zero status 1,
`stop` returns early and the running flag is NOT cleared, refuting the
claim that `stop()` always clears the RunningState flag. -/
theorem C1_counterexample :
    exRunning.dev = true ∧ exRunning.running = true ∧
    ¬ ((stop exRunning 1).2.running = false) := by
  refine ⟨rfl, rfl, ?_⟩
  decide

/-- C1 (amended): for every state with a non-null device handle, `stop()`
clears the RunningState flag to false and returns success only when the
transport stop command returns 0; when the stop command returns a
non-zero status, the failure is reported and `stop()` returns false
leaving the entire state — the running flag included — unchanged. -/
theorem C1_stop_clears_only_on_success (s : SourceState) (stopRet : ℤ)
    (hdev : s.dev = true) :
    (stopRet = 0 →
      (stop s stopRet).1 = true ∧
      (stop s stopRet).2 = { s with running := false }) ∧
    (stopRet ≠ 0 →
      (stop s stopRet).1 = false ∧ (stop s stopRet).2 = s) := by
  constructor
  · intro h
    subst h
    simp [stop, hdev]
  · intro h
    simp [stop, hdev, h]

/-- C1 witness: the amended theorem applied to the concrete streaming
state and a failing stop status. -/
theorem C1_stop_witness :
    exRunning.dev = true ∧ (1 : ℤ) ≠ 0 ∧
    (stop exRunning 1).1 = false ∧ (stop exRunning 1).2 = exRunning := by
  refine ⟨rfl, by decide, ?_⟩
  exact (C1_stop_clears_only_on_success exRunning 1 rfl).2 (by decide)

/-- C2: `set_gain(g, chan)` always stores g into
`StartParams.rx_gain[chan]`, whatever the live-command status `devRet`
was; it leaves the running flag unchanged; when running it returns the
live device value, otherwise the just-configured value; and `get_gain`
returns the live device value when running, else the configured value. -/
theorem C2_gain_arbiter (s : SourceState) (g : ℚ) (chan : ℕ)
    (devRet : ℤ) (liveGain liveGain2 : ℚ) :
    ((set_gain s g chan devRet liveGain).2.rxGain chan = g) ∧
    ((set_gain s g chan devRet liveGain).2.running = s.running) ∧
    (s.running = true →
      (set_gain s g chan devRet liveGain).1 = liveGain ∧
      get_gain s chan liveGain2 = liveGain2) ∧
    (s.running = false →
      (set_gain s g chan devRet liveGain).1 = g ∧
      get_gain s chan liveGain2 = s.rxGain chan ∧
      get_gain (set_gain s g chan devRet liveGain).2 chan liveGain2 = g) := by
    refine ⟨by simp [set_gain, get_gain], rfl, ?_, ?_⟩
    · intro h
      simp [set_gain, get_gain, h]
    · intro h
      simp [set_gain, get_gain, h]

/-- C2 witness: the gain-arbiter theorem applied in a running state
(set returns the live value, configured value still updated) and in an
idle state (set returns the configured value). -/
theorem C2_witness :
    exRunning.running = true ∧
    (set_gain exRunning 25 0 1 55).1 = 55 ∧
    (set_gain exRunning 25 0 1 55).2.rxGain 0 = 25 ∧
    exIdle.running = false ∧
    (set_gain exIdle 25 0 1 55).1 = 25 := by
  refine ⟨rfl, ?_, ?_, rfl, ?_⟩
  · exact ((C2_gain_arbiter exRunning 25 0 1 55 55).2.2.1 rfl).1
  · exact (C2_gain_arbiter exRunning 25 0 1 55 55).1
  · exact ((C2_gain_arbiter exIdle 25 0 1 55 55).2.2.2 rfl).1

/-- C4: when the transport read returns a negative code, `work` produces
exactly 0 samples, leaves the whole state (and so `timestamp_rx`) at its
previous value, requests device statistics for diagnostics, and the
statistics-fetch status never changes the result. -/
theorem C4_read_failure (s : SourceState) (n : ℕ) (rc ts statsRet : ℤ)
    (h : rc < 0) :
    (work s n rc ts statsRet).produced = 0 ∧
    (work s n rc ts statsRet).state = s ∧
    (work s n rc ts statsRet).state.timestampRx = s.timestampRx ∧
    (work s n rc ts statsRet).statsRequested = true ∧
    (∀ statsRet2 : ℤ, work s n rc ts statsRet = work s n rc ts statsRet2) := by
  simp [work, h]

/-- C4 witness: a read of 1024 items with transport code -1 on the
concrete streaming state produces 0 items, keeps the timestamp at 5 and
requests statistics. -/
theorem C4_read_failure_witness :
    ((-1 : ℤ) < 0) ∧
    (work exRunning 1024 (-1) 7 1).produced = 0 ∧
    (work exRunning 1024 (-1) 7 1).state.timestampRx = exRunning.timestampRx ∧
    (work exRunning 1024 (-1) 7 1).statsRequested = true := by
  have h := C4_read_failure exRunning 1024 (-1) 7 1 (by decide)
  exact ⟨by decide, h.1, h.2.2.1, h.2.2.2.1⟩

/-- C9: setting the gain through the "IF" stage — via the named
dispatcher or `set_if_gain` directly — issues no device command, leaves
the entire state (the configured RF gain in StartParams included)
unchanged, and returns the stored IF gain value `_vga_gain`. -/
theorem C9_if_gain_stub (s : SourceState) (g : ℚ) (chan : ℕ)
    (devRet : ℤ) (liveGain : ℚ) :
    set_gain_named s g "IF" chan devRet liveGain = (s.vgaGain, s) ∧
    set_if_gain s g chan = (s.vgaGain, s) := by
  constructor <;> rfl

/-- C6: `start()` returns failure and leaves the whole state — the
RunningState flag and StreamTimestamp included — unchanged when the
device start command fails or when the follow-up statistics query fails
(or when the handle is null); it succeeds exactly when the handle is
non-null and both transport calls return 0, and then it resets
StreamTimestamp to 0 and sets RunningState to true. -/
theorem C6_start_semantics (s : SourceState) (startRet statsRet : ℤ) :
    ((start s startRet statsRet).1 = true ↔
      (s.dev = true ∧ startRet = 0 ∧ statsRet = 0)) ∧
    ((start s startRet statsRet).1 = false →
      (start s startRet statsRet).2 = s) ∧
    ((start s startRet statsRet).1 = true →
      (start s startRet statsRet).2.timestampRx = 0 ∧
      (start s startRet statsRet).2.running = true) := by
  unfold start
  by_cases hdev : s.dev = true
  · by_cases h1 : startRet = 0
    · by_cases h2 : statsRet = 0 <;> simp_all
    · simp_all
  · simp_all

/-- C6 witness: the start-semantics theorem at the concrete state with
both transport calls succeeding. -/
theorem C6_start_witness :
    (start exIdle 0 0).1 = true ∧
    (start exIdle 0 0).2.timestampRx = 0 ∧
    (start exIdle 0 0).2.running = true := by
  have h := C6_start_semantics exIdle 0 0
  have ht : (start exIdle 0 0).1 = true := h.1.mpr ⟨rfl, rfl, rfl⟩
  exact ⟨ht, (h.2.2 ht).1, (h.2.2 ht).2⟩

/-- C7: with a non-null handle, for every rate accepted by the validator
(the write-path range [400e3, 25e6]) `set_sample_rate(x)` returns x and a
subsequent `get_sample_rate()` returns x; for every rejected rate the
whole state is left unchanged and the previous configured rate is
returned. -/
theorem C7_sample_rate_roundtrip (s : SourceState) (x : ℚ)
    (hdev : s.dev = true) :
    ((400000 ≤ x ∧ x ≤ 25000000) →
      (set_sample_rate s x).1 = x ∧
      get_sample_rate (set_sample_rate s x).2 = x) ∧
    ((x < 400000 ∨ 25000000 < x) →
      (set_sample_rate s x).1 = get_sample_rate s ∧
      (set_sample_rate s x).2 = s) := by
  constructor
  · rintro ⟨h1, h2⟩
    have hcond : ¬ (x < 400000 ∨ x > 25000000) := by
      push_neg
      exact ⟨h1, h2⟩
    simp [set_sample_rate, pciesdr_set_sample_rate, get_sample_rate, hdev,
      hcond]
  · intro h
    simp [set_sample_rate, pciesdr_set_sample_rate, get_sample_rate, hdev, h]

/-- C7 witness: the round-trip theorem at the accepted rate 2,000,000 and
the rejected rate 100 on the concrete state. -/
theorem C7_sample_rate_witness :
    ((400000 : ℚ) ≤ 2000000 ∧ (2000000 : ℚ) ≤ 25000000) ∧
    (set_sample_rate exRunning 2000000).1 = 2000000 ∧
    get_sample_rate (set_sample_rate exRunning 2000000).2 = 2000000 ∧
    ((100 : ℚ) < 400000) ∧
    (set_sample_rate exRunning 100).1 = get_sample_rate exRunning ∧
    (set_sample_rate exRunning 100).2 = exRunning := by
  refine ⟨⟨by norm_num, by norm_num⟩, ?_, ?_, by norm_num, ?_, ?_⟩
  · exact ((C7_sample_rate_roundtrip exRunning 2000000 rfl).1
      ⟨by norm_num, by norm_num⟩).1
  · exact ((C7_sample_rate_roundtrip exRunning 2000000 rfl).1
      ⟨by norm_num, by norm_num⟩).2
  · exact ((C7_sample_rate_roundtrip exRunning 100 rfl).2
      (Or.inl (by norm_num))).1
  · exact ((C7_sample_rate_roundtrip exRunning 100 rfl).2
      (Or.inl (by norm_num))).2

/-- C10: `set_bandwidth(0, chan)` selects 0.75 times the currently
configured sample rate, stores it in `StartParams.rx_bandwidth[chan]` and
returns it; for a non-zero bandwidth b the stored value becomes b; and
`get_bandwidth` returns the stored StartParams value. -/
theorem C10_bandwidth (s : SourceState) (chan : ℕ) (b : ℚ) :
    ((set_bandwidth s 0 chan).1 = s.sampleRate * (3 / 4) ∧
      (set_bandwidth s 0 chan).2.rxBandwidth chan = s.sampleRate * (3 / 4) ∧
      get_bandwidth (set_bandwidth s 0 chan).2 chan =
        s.sampleRate * (3 / 4)) ∧
    (b ≠ 0 →
      (set_bandwidth s b chan).2.rxBandwidth chan = b ∧
      get_bandwidth (set_bandwidth s b chan).2 chan = b ∧
      (set_bandwidth s b chan).1 = b) := by
  constructor
  · simp [set_bandwidth, get_bandwidth]
  · intro hb
    simp [set_bandwidth, get_bandwidth, hb]

/-- C10 witness: on the concrete state (sample rate 1.5e6), automatic
bandwidth selection yields 1,125,000, and a non-zero request of 3000 is
stored and returned as-is. -/
theorem C10_bandwidth_witness :
    (set_bandwidth exRunning 0 0).1 = 1125000 ∧
    ((3000 : ℚ) ≠ 0) ∧
    (set_bandwidth exRunning 3000 0).1 = 3000 ∧
    get_bandwidth (set_bandwidth exRunning 3000 0).2 0 = 3000 := by
  have h0 := (C10_bandwidth exRunning 0 3000).1
  have h3 := (C10_bandwidth exRunning 0 3000).2 (by norm_num)
  refine ⟨?_, by norm_num, h3.2.2, h3.2.1⟩
  rw [h0.1]
  norm_num [exRunning]

/-- C5: with a non-null handle, `set_center_freq(f)` pushes the corrected
frequency f·(1 + ppm·1e-6) (truncated to uint64) to the device while the
stored current frequency becomes the uncorrected f when the corrected
value is in range; and `set_freq_corr(ppm)` immediately re-applies the
new correction to the last requested frequency, pushing the re-corrected
value to the device while the center-frequency accessor still reports the
uncorrected stored value. -/
theorem C5_freq_correction (s : SourceState) (f ppm : ℚ)
    (hdev : s.dev = true)
    (h1 : 70000000 ≤ toUInt64Trunc (f * (1 + s.freqCorr * (1 / 1000000))))
    (h2 : toUInt64Trunc (f * (1 + s.freqCorr * (1 / 1000000))) ≤ 6000000000)
    (h3 : 70000000 ≤
      toUInt64Trunc (s.centerFreq * (1 + ppm * (1 / 1000000))))
    (h4 : toUInt64Trunc (s.centerFreq * (1 + ppm * (1 / 1000000))) ≤
      6000000000) :
    ((set_center_freq s f).2.rxFreq =
        toUInt64Trunc (f * (1 + s.freqCorr * (1 / 1000000))) ∧
      (set_center_freq s f).2.centerFreq = f ∧
      (set_center_freq s f).1 = f) ∧
    ((set_freq_corr s ppm).2.rxFreq =
        toUInt64Trunc (s.centerFreq * (1 + ppm * (1 / 1000000))) ∧
      (set_freq_corr s ppm).2.centerFreq = s.centerFreq ∧
      get_center_freq (set_freq_corr s ppm).2 = s.centerFreq ∧
      (set_freq_corr s ppm).1 = ppm) := by
  have hc1 : ¬ (toUInt64Trunc (f * (1 + s.freqCorr * (1 / 1000000)))
      < 70000000 ∨
      toUInt64Trunc (f * (1 + s.freqCorr * (1 / 1000000))) > 6000000000) := by
    push_neg
    exact ⟨h1, h2⟩
  have hc2 : ¬ (toUInt64Trunc (s.centerFreq * (1 + ppm * (1 / 1000000)))
      < 70000000 ∨
      toUInt64Trunc (s.centerFreq * (1 + ppm * (1 / 1000000)))
        > 6000000000) := by
    push_neg
    exact ⟨h3, h4⟩
  simp only [one_div] at hc1 hc2
  constructor
  · simp [set_center_freq, pciesdr_set_freq, get_center_freq, hdev, hc1]
  · simp [set_freq_corr, set_center_freq, pciesdr_set_freq, get_center_freq,
      hdev, hc2]

/-- C5 witness: on the concrete state (stored center frequency
1,500,000,000, correction 0), setting a 10 ppm correction pushes
1,500,015,000 to the device while the accessor still reports
1,500,000,000. -/
theorem C5_freq_correction_witness :
    (set_freq_corr exRunning 10).2.rxFreq = 1500015000 ∧
    (set_freq_corr exRunning 10).2.centerFreq = 1500000000 ∧
    get_center_freq (set_freq_corr exRunning 10).2 = 1500000000 := by
  have h := (C5_freq_correction exRunning 2000000000 10 rfl
    (by norm_num [toUInt64Trunc, exRunning])
    (by norm_num [toUInt64Trunc, exRunning])
    (by norm_num [toUInt64Trunc, exRunning])
    (by norm_num [toUInt64Trunc, exRunning])).2
  refine ⟨?_, ?_, ?_⟩
  · rw [h.1]
    norm_num [toUInt64Trunc, exRunning]
    rfl
  · exact h.2.1
  · exact h.2.2.1

/-- C3: for every accepted rate, the negotiator splits the rate into
integral and fractional parts, scales the fraction by 10^9, rounds,
reduces the rounded value and 10^9 by their greatest common divisor, and
stores numerator = integral·denominator + reduced fraction and
denominator = reduced precision; for an exactly integral rate the same
code path (no special branch) yields denominator 1 and numerator equal to
the rate. -/
theorem C3_rate_negotiator (s : SourceState) (rate : ℚ)
    (h1 : 400000 ≤ rate) (h2 : rate ≤ 25000000) :
    (pciesdr_set_sample_rate s rate).1 = 0 ∧
    (pciesdr_set_sample_rate s rate).2.sampleRateDen =
      1000000000 /
        ((Nat.gcd (round ((rate - (⌊rate⌋ : ℚ)) * 1000000000)).toNat
          1000000000 : ℕ) : ℤ) ∧
    (pciesdr_set_sample_rate s rate).2.sampleRateNum =
      ⌊rate⌋ * (pciesdr_set_sample_rate s rate).2.sampleRateDen +
        round ((rate - (⌊rate⌋ : ℚ)) * 1000000000) /
          ((Nat.gcd (round ((rate - (⌊rate⌋ : ℚ)) * 1000000000)).toNat
            1000000000 : ℕ) : ℤ) ∧
    (rate = (⌊rate⌋ : ℚ) →
      (pciesdr_set_sample_rate s rate).2.sampleRateDen = 1 ∧
      (pciesdr_set_sample_rate s rate).2.sampleRateNum = ⌊rate⌋) := by
  have hcond : ¬ (rate < 400000 ∨ rate > 25000000) := by
    push_neg
    exact ⟨h1, h2⟩
  simp only [pciesdr_set_sample_rate, if_neg hcond, cgcd_eq_gcd,
    Nat.cast_ofNat]
  refine ⟨trivial, trivial, trivial, ?_⟩
  intro hint
  have hfrac : rate - (⌊rate⌋ : ℚ) = 0 := sub_eq_zero.mpr hint
  rw [hfrac]
  norm_num

/-- C3 witness: the negotiator theorem at the exactly integral rate
1,500,000: the stored denominator is 1 and the numerator is the rate. -/
theorem C3_rate_negotiator_witness :
    ((400000 : ℚ) ≤ 1500000) ∧ ((1500000 : ℚ) ≤ 25000000) ∧
    ((1500000 : ℚ) = (⌊(1500000 : ℚ)⌋ : ℚ)) ∧
    (pciesdr_set_sample_rate exRunning 1500000).2.sampleRateDen = 1 ∧
    (pciesdr_set_sample_rate exRunning 1500000).2.sampleRateNum = 1500000 := by
  have hfloor : ((1500000 : ℚ) = (⌊(1500000 : ℚ)⌋ : ℚ)) := by norm_num
  have h := (C3_rate_negotiator exRunning 1500000 (by norm_num)
    (by norm_num)).2.2.2 hfloor
  refine ⟨by norm_num, by norm_num, hfloor, h.1, ?_⟩
  rw [h.2]
  norm_num

/-- `stop` never touches `timestamp_rx`. -/
theorem stop_timestampRx (s : SourceState) (r : ℤ) :
    (stop s r).2.timestampRx = s.timestampRx := by
  unfold stop
  split
  · rfl
  · split <;> rfl

/-- `set_sample_rate` never touches `timestamp_rx`. -/
theorem set_sample_rate_timestampRx (s : SourceState) (r : ℚ) :
    (set_sample_rate s r).2.timestampRx = s.timestampRx := by
  simp only [set_sample_rate, pciesdr_set_sample_rate]
  repeat' split
  all_goals rfl

/-- `set_center_freq` never touches `timestamp_rx`. -/
theorem set_center_freq_timestampRx (s : SourceState) (f : ℚ) :
    (set_center_freq s f).2.timestampRx = s.timestampRx := by
  simp only [set_center_freq, pciesdr_set_freq]
  repeat' split
  all_goals rfl

/-- `set_freq_corr` never touches `timestamp_rx`. -/
theorem set_freq_corr_timestampRx (s : SourceState) (p : ℚ) :
    (set_freq_corr s p).2.timestampRx = s.timestampRx := by
  simp only [set_freq_corr]
  exact set_center_freq_timestampRx { s with freqCorr := p } _

/-- `set_gain` never touches `timestamp_rx`. -/
theorem set_gain_timestampRx (s : SourceState) (g : ℚ) (c : ℕ) (r : ℤ)
    (l : ℚ) : (set_gain s g c r l).2.timestampRx = s.timestampRx := rfl

/-- The named `set_gain` dispatcher never touches `timestamp_rx`. -/
theorem set_gain_named_timestampRx (s : SourceState) (g : ℚ) (nm : String)
    (c : ℕ) (r : ℤ) (l : ℚ) :
    (set_gain_named s g nm c r l).2.timestampRx = s.timestampRx := by
  unfold set_gain_named
  split
  · rfl
  · split <;> rfl

/-- `set_if_gain` never touches `timestamp_rx`. -/
theorem set_if_gain_timestampRx (s : SourceState) (g : ℚ) (c : ℕ) :
    (set_if_gain s g c).2.timestampRx = s.timestampRx := rfl

/-- `set_gain_mode` never touches `timestamp_rx`. -/
theorem set_gain_mode_timestampRx (s : SourceState) (a : Bool) :
    (set_gain_mode s a).2.timestampRx = s.timestampRx := rfl

/-- `set_bandwidth` never touches `timestamp_rx`. -/
theorem set_bandwidth_timestampRx (s : SourceState) (b : ℚ) (c : ℕ) :
    (set_bandwidth s b c).2.timestampRx = s.timestampRx := rfl

/-- C8 counterexample: a per-cycle read whose transport reports a smaller
timestamp (3) than the stored one (5) rewinds `timestamp_rx`, although the
operation is not a `start`; this refutes the claim that the timestamp is
never rewound to a smaller value except by `start`. -/
theorem C8_counterexample :
    (Op.opWork 1024 0 3 0).isStart = false ∧
    exRunning.timestampRx = 5 ∧
    (step exRunning (Op.opWork 1024 0 3 0)).timestampRx = 3 ∧
    ¬ (exRunning.timestampRx ≤
        (step exRunning (Op.opWork 1024 0 3 0)).timestampRx) := by
  refine ⟨rfl, rfl, rfl, by decide⟩

/-- C8 (amended): `timestamp_rx` is updated only by the per-cycle read
and by `start()` — every other operation leaves it unchanged; a `start`
either resets it to 0 (on success) or leaves it unchanged (on failure);
and a read never rewinds it provided the transport reports a timestamp no
smaller than the stored one — with an arbitrary transport the stored
timestamp simply follows whatever value the transport reports on a
successful read, so monotonicity is inherited from, not enforced on, the
transport. -/
theorem C8_timestamp_updates (s : SourceState) (op : Op) :
    (op.isStart = false → op.isWork = false →
      (step s op).timestampRx = s.timestampRx) ∧
    (∀ n rc ts statsRet, op = Op.opWork n rc ts statsRet →
      s.timestampRx ≤ ts →
      s.timestampRx ≤ (step s op).timestampRx) ∧
    (∀ r1 r2, op = Op.opStart r1 r2 →
      (step s op).timestampRx = 0 ∨
      (step s op).timestampRx = s.timestampRx) := by
  refine ⟨?_, ?_, ?_⟩
  · intro hs hw
    cases op with
    | opStart r1 r2 => simp [Op.isStart] at hs
    | opStop r => exact stop_timestampRx s r
    | opWork n rc ts r => simp [Op.isWork] at hw
    | opSetSampleRate r => exact set_sample_rate_timestampRx s r
    | opSetCenterFreq f => exact set_center_freq_timestampRx s f
    | opSetFreqCorr p => exact set_freq_corr_timestampRx s p
    | opSetGain g c r l => exact set_gain_timestampRx s g c r l
    | opSetGainNamed g nm c r l => exact set_gain_named_timestampRx s g nm c r l
    | opSetIfGain g c => exact set_if_gain_timestampRx s g c
    | opSetGainMode a => exact set_gain_mode_timestampRx s a
    | opSetBandwidth b c => exact set_bandwidth_timestampRx s b c
  · rintro n rc ts statsRet rfl hts
    simp only [step, work]
    split
    · exact le_refl _
    · exact hts
  · rintro r1 r2 rfl
    simp only [step, start]
    split
    · exact Or.inr rfl
    · split
      · exact Or.inr rfl
      · split
        · exact Or.inr rfl
        · exact Or.inl rfl

/-- C8 witness: the amended theorem applied on the concrete streaming
state to a gain update (timestamp untouched), a successful read with a
non-rewinding transport timestamp, and a successful start. -/
theorem C8_timestamp_witness :
    (step exRunning (Op.opSetGain 25 0 0 55)).timestampRx =
      exRunning.timestampRx ∧
    exRunning.timestampRx ≤
      (step exRunning (Op.opWork 64 0 9 0)).timestampRx ∧
    ((step exRunning (Op.opStart 0 0)).timestampRx = 0 ∨
      (step exRunning (Op.opStart 0 0)).timestampRx =
        exRunning.timestampRx) := by
  refine ⟨(C8_timestamp_updates exRunning (Op.opSetGain 25 0 0 55)).1 rfl rfl,
    (C8_timestamp_updates exRunning (Op.opWork 64 0 9 0)).2.1 64 0 9 0 rfl
      (by decide),
    (C8_timestamp_updates exRunning (Op.opStart 0 0)).2.2 0 0 rfl⟩

end PcieSdr
